import Mathlib

/-!
Verification of the `engine_forkchoiceUpdatedV3` RPC handler
(`crates/networking/rpc/engine/fork_choice.rs`).

The handler's collaborators (the fork-choice application engine, the
payload builder, chain storage and the sync coordinator) live outside the
analysed fragment; they are modelled as explicit parameters (functions and
result fields), while the handler's own control flow is translated
statement by statement.  Side effects (the fork-choice application, the
spawned sync task, payload creation and insertion) are recorded in an
event trace, and the possibility of a Rust panic (`unwrap`) is made
explicit in the result type.
-/

/-- Block hashes are opaque identifiers. -/
abbrev Hash := Nat

/-- `ForkChoiceState`: the three block-hash identifiers of the request. -/
structure ForkChoiceState where
  head_block_hash : Hash
  safe_block_hash : Hash
  finalized_block_hash : Hash
deriving Repr, DecidableEq

/-- `PayloadAttributesV3`: the optional attributes of the block to build. -/
structure PayloadAttributesV3 where
  timestamp : Nat
  suggested_fee_recipient : Nat
  prev_randao : Nat
  withdrawals : List Nat
  parent_beacon_block_root : Nat
deriving Repr, DecidableEq

/-- The head block descriptor returned by a successful fork-choice
application; only its timestamp is consulted by the handler. -/
structure BlockHeader where
  timestamp : Nat
deriving Repr, DecidableEq

/-- `InvalidForkChoice` (from `ethrex_blockchain::error`): the rejection
reasons of `apply_fork_choice`.  All variants other than
`NewHeadAlreadyCanonical` and `Syncing` are collapsed into `Other`
carrying their display string, which is all the handler uses of them. -/
inductive InvalidForkChoice where
  | NewHeadAlreadyCanonical
  | Syncing
  | Other (reason : String)
deriving Repr, DecidableEq

/-- Display string of an `InvalidForkChoice` value (`reason.to_string()`). -/
def InvalidForkChoice.toString : InvalidForkChoice → String
  | .NewHeadAlreadyCanonical => "new head already canonical"
  | .Syncing => "syncing"
  | .Other reason => reason

/-- `RpcErr`: the error variants the handler produces.  `EvmError` stands
for the conversion `error.into()` applied to a build-specific execution
error, which the spec requires to be surfaced directly to the caller. -/
inductive RpcErr where
  | BadParams (msg : String)
  | InvalidForkChoiceState (msg : String)
  | InvalidPayloadAttributes (msg : String)
  | UnsuportedFork (msg : String)
  | Internal (msg : String)
  | EvmError (msg : String)
deriving Repr, DecidableEq

/-- The status vocabulary of a payload-status response. -/
inductive PayloadStatusEnum where
  | Valid
  | Syncing
  | Invalid
deriving Repr, DecidableEq

/-- `PayloadStatus` (from `crate::types::payload`). -/
structure PayloadStatus where
  status : PayloadStatusEnum
  latest_valid_hash : Option Hash
  validation_error : Option String
deriving Repr, DecidableEq

/-- Modelled from the spec: `PayloadStatus::valid_with_hash` builds a
`VALID` status carrying the given hash and no validation error. -/
def PayloadStatus.valid_with_hash (h : Hash) : PayloadStatus :=
  { status := .Valid, latest_valid_hash := some h, validation_error := none }

/-- Modelled from the spec: `PayloadStatus::syncing` builds a `SYNCING`
status with no latest valid hash and no validation error. -/
def PayloadStatus.syncing : PayloadStatus :=
  { status := .Syncing, latest_valid_hash := none, validation_error := none }

/-- `ForkChoiceResponse` (from `crate::types::fork_choice`). -/
structure ForkChoiceResponse where
  payload_status : PayloadStatus
  payload_id : Option Nat
deriving Repr, DecidableEq

/-- Modelled from the spec: `ForkChoiceResponse::from(status)` wraps a
payload status with no payload identifier. -/
def ForkChoiceResponse.fromStatus (ps : PayloadStatus) : ForkChoiceResponse :=
  { payload_status := ps, payload_id := none }

/-- `ForkChoiceResponse::set_id`. -/
def ForkChoiceResponse.set_id (r : ForkChoiceResponse) (id : Nat) : ForkChoiceResponse :=
  { r with payload_id := some id }

/-- The chain configuration, exposing only the activation predicate the
handler consults (`is_cancun_activated`), kept abstract. -/
structure ChainConfig where
  is_cancun_activated : Nat → Bool

/-- `BuildPayloadArgs` (from `ethrex_blockchain::payload`). -/
structure BuildPayloadArgs where
  parent : Hash
  timestamp : Nat
  fee_recipient : Nat
  random : Nat
  withdrawals : List Nat
  beacon_root : Option Nat
  version : Nat
deriving Repr, DecidableEq

/-- Modelled from the spec: `BuildPayloadArgs::id` derives a stable payload
identifier deterministically from all the fields, so that repeated
identical requests yield the same identifier.  The concrete hash is not in
the analysed fragment; any deterministic encoding of the fields serves. -/
def BuildPayloadArgs.id (args : BuildPayloadArgs) : Nat :=
  args.parent + 31 * (args.timestamp + 31 * (args.fee_recipient + 31 *
    (args.random + 31 * (args.withdrawals.foldl (fun a w => 31 * a + w + 1) 0 + 31 *
      ((match args.beacon_root with | none => 0 | some b => b + 1) + 31 * args.version)))))

/-- `ChainError` (from `ethrex_blockchain::error`), as matched by the
handler: a build-specific execution error, or anything else. -/
inductive ChainError where
  | EvmError (msg : String)
  | Other (msg : String)
deriving Repr, DecidableEq

/-- Display string of a `ChainError`. -/
def ChainError.toString : ChainError → String
  | .EvmError msg => msg
  | .Other msg => msg

/-- The storage collaborator.  Each query is modelled by its result; a
`?`-propagated store error is carried as the `Except.error` case and is
converted to `RpcErr::Internal` at the use sites, per the spec's error
taxonomy. -/
structure Store where
  get_latest_block_number : Except String (Option Nat)
  get_canonical_block_hash : Nat → Except String (Option Hash)
  get_chain_config : Except String ChainConfig
  payloads : List (Nat × Nat)
  add_payload_error : Option String

/-- `Store::add_payload`: persist the `(PayloadId, payload)` association,
or fail with a store error. -/
def Store.add_payload (s : Store) (id payload : Nat) : Except String Store :=
  match s.add_payload_error with
  | some e => .error e
  | none => .ok { s with payloads := (id, payload) :: s.payloads }

/-- Modelled from the spec: `latest_canonical_block_hash` (from
`ethrex_blockchain`) reads the chain's current canonical head hash, by
reading the latest block number and then its canonical hash; it fails
when either is missing or the store errors.  The handler unwraps this
result, so its failure is a panic at the call site. -/
def latest_canonical_block_hash (s : Store) : Except String Hash :=
  match s.get_latest_block_number with
  | .error e => .error e
  | .ok none => .error "Could not find latest valid hash"
  | .ok (some n) =>
    match s.get_canonical_block_hash n with
    | .error e => .error e
    | .ok none => .error "Could not find latest valid hash"
    | .ok (some h) => .ok h

/-- `ForkChoiceUpdatedV3`: the parsed request. `payload_attributes` keeps
a separately-fallible decode result (`Result<Option<_>, String>`). -/
structure ForkChoiceUpdatedV3 where
  fork_choice_state : ForkChoiceState
  payload_attributes : Except String (Option PayloadAttributesV3)

/-- `RpcApiContext`: the handler's context; only the storage handle is
consulted synchronously (the syncer is used inside the spawned task,
modelled separately). -/
structure RpcApiContext where
  storage : Store

/-- The external collaborators invoked by the handler:
`apply_fork_choice` returns its classified outcome together with the
storage state after its head/safe/finalized pointer updates, and
`create_payload` builds a candidate payload (an opaque value). -/
structure Env where
  apply_fork_choice : Store → Hash → Hash → Hash → Except InvalidForkChoice BlockHeader × Store
  create_payload : BuildPayloadArgs → Store → Except ChainError Nat

/-- The observable side effects of one request, in order of occurrence. -/
inductive Event where
  | applied_fork_choice (head safe finalized : Hash)
  | spawned_sync (current_head sync_head : Hash)
  | created_payload (args : BuildPayloadArgs)
  | added_payload (id : Nat)
deriving Repr, DecidableEq

/-- The result of `handle`: a normal JSON response (modelled by the
response value it serialises), a typed error, or a Rust panic caused by
`unwrap` on a failed lookup. -/
inductive Outcome where
  | panicked
  | err (e : RpcErr)
  | ok (r : ForkChoiceResponse)
deriving Repr, DecidableEq

/-- Whether an outcome is an `Internal` error. -/
def Outcome.isInternalErr : Outcome → Bool
  | .err (.Internal _) => true
  | _ => false

/-- The payload identifier of a normal response outcome (`none` for an
error or a panic). -/
def Outcome.payloadId : Outcome → Option Nat
  | .ok r => r.payload_id
  | _ => none

/-- The `BuildPayloadArgs` literal assembled by the handler from the
request state and attributes (`version: 3`). -/
def buildArgs (state : ForkChoiceState) (attributes : PayloadAttributesV3) : BuildPayloadArgs :=
  { parent := state.head_block_hash
    timestamp := attributes.timestamp
    fee_recipient := attributes.suggested_fee_recipient
    random := attributes.prev_randao
    withdrawals := attributes.withdrawals
    beacon_root := some attributes.parent_beacon_block_root
    version := 3 }

/-- The `InvalidForkChoice::Syncing` branch of `handle`: read the current
canonical head number and hash (`?` store errors become `Internal`; a
missing latest block number is unwrapped, i.e. panics; a missing canonical
hash is the explicit `Internal("Missing latest canonical block")`), then
spawn the detached sync task and answer `SYNCING`. -/
def handleSyncing (self : ForkChoiceUpdatedV3) (st1 : Store) (ev0 : List Event) :
    Outcome × List Event × Store :=
  match st1.get_latest_block_number with
  | .error e => (.err (RpcErr.Internal e), ev0, st1)
  | .ok none => (.panicked, ev0, st1)
  | .ok (some current_number) =>
    match st1.get_canonical_block_hash current_number with
    | .error e => (.err (RpcErr.Internal e), ev0, st1)
    | .ok none => (.err (RpcErr.Internal "Missing latest canonical block"), ev0, st1)
    | .ok (some current_head) =>
      let sync_head := self.fork_choice_state.head_block_hash
      (.ok (ForkChoiceResponse.fromStatus PayloadStatus.syncing),
        ev0 ++ [Event.spawned_sync current_head sync_head], st1)

/-- The `Ok(head_block)` branch of `handle`: provisional `VALID` response
with the requested head hash, then the payload-attributes match — decode
error surfaced as `InvalidPayloadAttributes`, `None` returns the
provisional response, and `Some(attributes)` runs the payload gate
(Cancun activation, strict timestamp ordering), builds the args, derives
the id, invokes `create_payload` and persists the payload. -/
def handleApplied (env : Env) (self : ForkChoiceUpdatedV3) (st1 : Store)
    (head_block : BlockHeader) (ev0 : List Event) : Outcome × List Event × Store :=
  let response := ForkChoiceResponse.fromStatus
    (PayloadStatus.valid_with_hash self.fork_choice_state.head_block_hash)
  match self.payload_attributes with
  | .error e => (.err (RpcErr.InvalidPayloadAttributes e), ev0, st1)
  | .ok none => (.ok response, ev0, st1)
  | .ok (some attributes) =>
    match st1.get_chain_config with
    | .error e => (.err (RpcErr.Internal e), ev0, st1)
    | .ok chain_config =>
      if chain_config.is_cancun_activated attributes.timestamp = false then
        (.err (RpcErr.UnsuportedFork "forkChoiceV3 used to build pre-Cancun payload"), ev0, st1)
      else if attributes.timestamp ≤ head_block.timestamp then
        (.err (RpcErr.InvalidPayloadAttributes "invalid timestamp"), ev0, st1)
      else
        let args := buildArgs self.fork_choice_state attributes
        let payload_id := args.id
        let response := response.set_id payload_id
        let ev1 := ev0 ++ [Event.created_payload args]
        match env.create_payload args st1 with
        | .error (ChainError.EvmError e) => (.err (RpcErr.EvmError e), ev1, st1)
        | .error err => (.err (RpcErr.Internal err.toString), ev1, st1)
        | .ok payload =>
          match st1.add_payload payload_id payload with
          | .error e => (.err (RpcErr.Internal e), ev1, st1)
          | .ok st2 => (.ok response, ev1 ++ [Event.added_payload payload_id], st2)

/-- Branch on the outcome of `apply_fork_choice`:
`NewHeadAlreadyCanonical` answers `VALID` with the freshly looked-up
canonical head (unwrapped: its failure panics); `Syncing` runs the sync
path; any other rejection is a terminal `InvalidForkChoiceState` error
carrying the reason's display string; success proceeds to the payload
path. -/
def handleOutcome (env : Env) (self : ForkChoiceUpdatedV3) (st1 : Store)
    (res : Except InvalidForkChoice BlockHeader) : Outcome × List Event × Store :=
  let s := self.fork_choice_state
  let ev0 := [Event.applied_fork_choice s.head_block_hash s.safe_block_hash s.finalized_block_hash]
  match res with
  | .error InvalidForkChoice.NewHeadAlreadyCanonical =>
    match latest_canonical_block_hash st1 with
    | .error _ => (.panicked, ev0, st1)
    | .ok h =>
      (.ok (ForkChoiceResponse.fromStatus (PayloadStatus.valid_with_hash h)), ev0, st1)
  | .error InvalidForkChoice.Syncing => handleSyncing self st1 ev0
  | .error reason => (.err (RpcErr.InvalidForkChoiceState reason.toString), ev0, st1)
  | .ok head_block => handleApplied env self st1 head_block ev0

/-- `ForkChoiceUpdatedV3::handle`: apply the fork choice with the three
requested hashes (its pointer updates transform the storage), then branch
on the classified outcome.  Returns the outcome, the ordered side-effect
trace, and the final storage state. -/
def ForkChoiceUpdatedV3.handle (env : Env) (self : ForkChoiceUpdatedV3)
    (context : RpcApiContext) : Outcome × List Event × Store :=
  match env.apply_fork_choice context.storage
      self.fork_choice_state.head_block_hash
      self.fork_choice_state.safe_block_hash
      self.fork_choice_state.finalized_block_hash with
  | (res, st1) => handleOutcome env self st1 res

/-- A raw JSON parameter, abstracted to what the two serde decodes can see
of it: a fork-choice-state object, a payload-attributes object or null,
or something neither decode accepts. -/
inductive Value where
  | fcs (state : ForkChoiceState)
  | attrs (attributes : Option PayloadAttributesV3)
  | invalid (desc : String)
deriving Repr, DecidableEq

/-- Modelled from the spec: the serde decode of element 0 into
`ForkChoiceState`, an external fallible decoder. -/
def decodeForkChoiceState : Value → Except String ForkChoiceState
  | .fcs state => .ok state
  | _ => .error "invalid ForkChoiceState"

/-- Modelled from the spec: the serde decode of element 1 into
`Option<PayloadAttributesV3>`, an external fallible decoder whose error is
stringified (`map_err(|e| e.to_string())`). -/
def decodePayloadAttributes : Value → Except String (Option PayloadAttributesV3)
  | .attrs attributes => .ok attributes
  | _ => .error "invalid PayloadAttributesV3"

/-- `ForkChoiceUpdatedV3::parse`: require a parameter list of exactly two
elements; decoding element 0 is fatal (`?`, surfaced as `BadParams`);
decoding element 1 is captured as a value and never aborts parsing. -/
def ForkChoiceUpdatedV3.parse (params : Option (List Value)) :
    Except RpcErr ForkChoiceUpdatedV3 :=
  match params with
  | none => .error (RpcErr.BadParams "No params provided")
  | some [p0, p1] =>
    match decodeForkChoiceState p0 with
    | .error e => .error (RpcErr.BadParams e)
    | .ok state =>
      .ok { fork_choice_state := state, payload_attributes := decodePayloadAttributes p1 }
  | some _ => .error (RpcErr.BadParams "Expected 2 params")

/-- The sync coordinator, modelled as a mutual-exclusion flag together
with the number of synchronization tasks currently running.  `lockHeld`
models the mutex around the syncer; `active` counts in-flight
`start_sync` executions. -/
structure SyncCoordinator where
  lockHeld : Bool
  active : Nat
deriving Repr, DecidableEq

/-- The state before any synchronization has been requested. -/
def SyncCoordinator.init : SyncCoordinator := { lockHeld := false, active := 0 }

/-- The body of the spawned sync task: `try_lock` on the syncer.  When the
lock is already held the task is a silent no-op (`none`, no sync started);
otherwise it takes the lock and starts `start_sync(current_head,
sync_head)`, reported as `some (current_head, sync_head)`. -/
def syncTask (c : SyncCoordinator) (current_head sync_head : Hash) :
    SyncCoordinator × Option (Hash × Hash) :=
  if c.lockHeld then (c, none)
  else ({ lockHeld := true, active := c.active + 1 }, some (current_head, sync_head))

/-- Transitions of the sync coordinator: a spawned task runs its
`try_lock` body atomically, or a running synchronization finishes and
releases the lock. -/
inductive SyncStep : SyncCoordinator → SyncCoordinator → Prop where
  | spawn (c : SyncCoordinator) (current_head sync_head : Hash) :
      SyncStep c (syncTask c current_head sync_head).1
  | finish (n : Nat) : SyncStep ⟨true, n + 1⟩ ⟨false, n⟩

/-- The coordinator states reachable from the idle state. -/
inductive SyncReachable : SyncCoordinator → Prop where
  | init : SyncReachable SyncCoordinator.init
  | step (a b : SyncCoordinator) : SyncReachable a → SyncStep a b → SyncReachable b

/-! Concrete collaborator instances used by the witnesses. -/

/-- A storage state holding a canonical chain: latest block number 5 whose
canonical hash is 77, a Cancun-at-100 chain configuration, an empty
payload cache, and no store faults. -/
def storeA : Store :=
  { get_latest_block_number := .ok (some 5)
    get_canonical_block_hash := fun n => if n = 5 then .ok (some 77) else .ok none
    get_chain_config := .ok { is_cancun_activated := fun ts => decide (100 ≤ ts) }
    payloads := []
    add_payload_error := none }

/-- A storage state with no latest block number recorded. -/
def storeEmpty : Store :=
  { get_latest_block_number := .ok none
    get_canonical_block_hash := fun _ => .ok none
    get_chain_config := .ok { is_cancun_activated := fun ts => decide (100 ≤ ts) }
    payloads := []
    add_payload_error := none }

/-- A concrete fork-choice state. -/
def stateA : ForkChoiceState :=
  { head_block_hash := 1, safe_block_hash := 2, finalized_block_hash := 3 }

/-- The context holding `storeA`. -/
def ctxA : RpcApiContext := { storage := storeA }

/-- The context holding `storeEmpty`. -/
def ctxEmpty : RpcApiContext := { storage := storeEmpty }

/-- An environment whose fork-choice application yields the given outcome
without touching storage, and whose payload builder yields the given
result. -/
def envOf (res : Except InvalidForkChoice BlockHeader) (build : Except ChainError Nat) : Env :=
  { apply_fork_choice := fun st _ _ _ => (res, st)
    create_payload := fun _ _ => build }

/-- A request carrying `stateA` and a failed attribute decode. -/
def selfErrAttrs : ForkChoiceUpdatedV3 :=
  { fork_choice_state := stateA, payload_attributes := .error "bad attributes" }

/-- A request carrying `stateA` and null attributes. -/
def selfNoAttrs : ForkChoiceUpdatedV3 :=
  { fork_choice_state := stateA, payload_attributes := .ok none }

/-- Well-formed concrete payload attributes with timestamp 150. -/
def attrsA : PayloadAttributesV3 :=
  { timestamp := 150, suggested_fee_recipient := 7, prev_randao := 8
    withdrawals := [4, 6], parent_beacon_block_root := 9 }

/-- A request carrying `stateA` and the attributes `attrsA`. -/
def selfAttrsA : ForkChoiceUpdatedV3 :=
  { fork_choice_state := stateA, payload_attributes := .ok (some attrsA) }

/-- Payload attributes with the pre-Cancun timestamp 90. -/
def attrs90 : PayloadAttributesV3 :=
  { timestamp := 90, suggested_fee_recipient := 7, prev_randao := 8
    withdrawals := [4, 6], parent_beacon_block_root := 9 }

/-- A request carrying `stateA` and the attributes `attrs90`. -/
def selfAttrs90 : ForkChoiceUpdatedV3 :=
  { fork_choice_state := stateA, payload_attributes := .ok (some attrs90) }

/-- A storage state that records a latest block number but no canonical
hash for it. -/
def storeNoHash : Store :=
  { get_latest_block_number := .ok (some 5)
    get_canonical_block_hash := fun _ => .ok none
    get_chain_config := .ok { is_cancun_activated := fun ts => decide (100 ≤ ts) }
    payloads := []
    add_payload_error := none }

/-- The context holding `storeNoHash`. -/
def ctxNoHash : RpcApiContext := { storage := storeNoHash }

/-! Claims. -/

/-- `handle` unfolded at its outer pair match: the fork choice is applied
exactly once and its classified outcome and post-application storage are
threaded to the branch analysis. -/
theorem handle_eq (env : Env) (self : ForkChoiceUpdatedV3) (context : RpcApiContext) :
    ForkChoiceUpdatedV3.handle env self context =
      handleOutcome env self
        (env.apply_fork_choice context.storage self.fork_choice_state.head_block_hash
          self.fork_choice_state.safe_block_hash self.fork_choice_state.finalized_block_hash).2
        (env.apply_fork_choice context.storage self.fork_choice_state.head_block_hash
          self.fork_choice_state.safe_block_hash self.fork_choice_state.finalized_block_hash).1 :=
  rfl

/-- The `Applied` branch never panics: every failure there is a typed
error. -/
theorem handleApplied_ne_panicked (env : Env) (self : ForkChoiceUpdatedV3) (st1 : Store)
    (head_block : BlockHeader) (ev0 : List Event) :
    (handleApplied env self st1 head_block ev0).1 ≠ Outcome.panicked := by
  intro hcontra
  unfold handleApplied at hcontra
  repeat' split at hcontra
  all_goals try (simp at hcontra)
  rename_i pa a hpa xcc cc hcc hact hts
  rcases hcp : env.create_payload (buildArgs self.fork_choice_state a) st1 with ce | p
  · rcases ce with e2 | e2 <;> simp [hcp] at hcontra
  · rcases hadd : st1.add_payload (buildArgs self.fork_choice_state a).id p with e2 | st2 <;>
      simp [hcp, hadd] at hcontra

/-- C1: when the fork-choice application outcome is `Applied` and the
payload-attributes decode failed, the handler fails the whole request
with `InvalidPayloadAttributes` carrying the decode error; the event
trace shows the fork-choice application has already been invoked, and the
final storage state is exactly the post-application state `st1` — the
pointer updates are never rolled back. -/
theorem applied_attr_error_fails_after_fork_choice (env : Env) (self : ForkChoiceUpdatedV3)
    (context : RpcApiContext) (head_block : BlockHeader) (st1 : Store) (e : String)
    (happly : env.apply_fork_choice context.storage self.fork_choice_state.head_block_hash
      self.fork_choice_state.safe_block_hash self.fork_choice_state.finalized_block_hash
      = (.ok head_block, st1))
    (hattrs : self.payload_attributes = .error e) :
    ForkChoiceUpdatedV3.handle env self context =
      (.err (RpcErr.InvalidPayloadAttributes e),
       [Event.applied_fork_choice self.fork_choice_state.head_block_hash
         self.fork_choice_state.safe_block_hash self.fork_choice_state.finalized_block_hash],
       st1) := by
  simp [ForkChoiceUpdatedV3.handle, happly, handleOutcome, handleApplied, hattrs]

/-- C1 witness: a concrete `Applied` outcome with a failed attribute
decode fails with the decode error after the fork choice took effect. -/
theorem applied_attr_error_fails_after_fork_choice_w :
    ForkChoiceUpdatedV3.handle (envOf (.ok ⟨50⟩) (.ok 99)) selfErrAttrs ctxA =
      (.err (RpcErr.InvalidPayloadAttributes "bad attributes"),
       [Event.applied_fork_choice 1 2 3], storeA) :=
  applied_attr_error_fails_after_fork_choice (envOf (.ok ⟨50⟩) (.ok 99)) selfErrAttrs ctxA
    ⟨50⟩ storeA "bad attributes" rfl rfl

/-- C2: when the fork-choice application outcome is `AlreadyCanonical`,
the handler answers `VALID` with `latest_valid_hash` equal to the
canonical head freshly looked up in storage (not the requested head
hash), no payload identifier, and no sync or build side effect. -/
theorem already_canonical_returns_canonical_head (env : Env) (self : ForkChoiceUpdatedV3)
    (context : RpcApiContext) (st1 : Store) (current : Hash)
    (happly : env.apply_fork_choice context.storage self.fork_choice_state.head_block_hash
      self.fork_choice_state.safe_block_hash self.fork_choice_state.finalized_block_hash
      = (.error InvalidForkChoice.NewHeadAlreadyCanonical, st1))
    (hlookup : latest_canonical_block_hash st1 = .ok current) :
    ForkChoiceUpdatedV3.handle env self context =
      (.ok { payload_status := { status := .Valid, latest_valid_hash := some current, validation_error := none }, payload_id := none },
       [Event.applied_fork_choice self.fork_choice_state.head_block_hash
         self.fork_choice_state.safe_block_hash self.fork_choice_state.finalized_block_hash],
       st1) := by
  simp [ForkChoiceUpdatedV3.handle, happly, handleOutcome, hlookup,
    ForkChoiceResponse.fromStatus, PayloadStatus.valid_with_hash]

/-- C2 witness: with requested head 1 while the canonical head in storage
is 77, the `AlreadyCanonical` response carries 77, not 1. -/
theorem already_canonical_returns_canonical_head_w :
    ForkChoiceUpdatedV3.handle (envOf (.error InvalidForkChoice.NewHeadAlreadyCanonical) (.ok 0))
      selfNoAttrs ctxA =
      (.ok { payload_status := { status := .Valid, latest_valid_hash := some 77, validation_error := none }, payload_id := none },
       [Event.applied_fork_choice 1 2 3], storeA) :=
  already_canonical_returns_canonical_head
    (envOf (.error InvalidForkChoice.NewHeadAlreadyCanonical) (.ok 0)) selfNoAttrs ctxA
    storeA 77 rfl rfl

/-- C3: when the fork-choice application outcome is `Syncing` and the
canonical-head lookups succeed, the handler answers `SYNCING` with no
latest valid hash and no payload identifier, the only side effects being
the fork-choice application and the spawned sync task — no payload build
is attempted, whatever `payload_attributes` holds. -/
theorem syncing_returns_syncing_response (env : Env) (self : ForkChoiceUpdatedV3)
    (context : RpcApiContext) (st1 : Store) (n : Nat) (current_head : Hash)
    (happly : env.apply_fork_choice context.storage self.fork_choice_state.head_block_hash
      self.fork_choice_state.safe_block_hash self.fork_choice_state.finalized_block_hash
      = (.error InvalidForkChoice.Syncing, st1))
    (hn : st1.get_latest_block_number = .ok (some n))
    (hh : st1.get_canonical_block_hash n = .ok (some current_head)) :
    ForkChoiceUpdatedV3.handle env self context =
      (.ok { payload_status := { status := .Syncing, latest_valid_hash := none, validation_error := none }, payload_id := none },
       [Event.applied_fork_choice self.fork_choice_state.head_block_hash
         self.fork_choice_state.safe_block_hash self.fork_choice_state.finalized_block_hash,
        Event.spawned_sync current_head self.fork_choice_state.head_block_hash],
       st1) := by
  simp [ForkChoiceUpdatedV3.handle, happly, handleOutcome, handleSyncing, hn, hh,
    ForkChoiceResponse.fromStatus, PayloadStatus.syncing]

/-- C3 witness: a `Syncing` outcome over `storeA` answers `SYNCING` and
spawns one sync task from canonical head 77 toward requested head 1, even
though the request carried a failed attribute decode. -/
theorem syncing_returns_syncing_response_w :
    ForkChoiceUpdatedV3.handle (envOf (.error InvalidForkChoice.Syncing) (.ok 0))
      selfErrAttrs ctxA =
      (.ok { payload_status := { status := .Syncing, latest_valid_hash := none, validation_error := none }, payload_id := none },
       [Event.applied_fork_choice 1 2 3, Event.spawned_sync 77 1], storeA) :=
  syncing_returns_syncing_response (envOf (.error InvalidForkChoice.Syncing) (.ok 0))
    selfErrAttrs ctxA storeA 5 77 rfl rfl rfl

/-- C4: when the fork-choice application is rejected for any reason other
than `AlreadyCanonical` or `Syncing`, the call terminates with an
`InvalidForkChoiceState` error carrying the reason's string, and no
response object is produced. -/
theorem invalid_outcome_terminal_error (env : Env) (self : ForkChoiceUpdatedV3)
    (context : RpcApiContext) (st1 : Store) (reason : String)
    (happly : env.apply_fork_choice context.storage self.fork_choice_state.head_block_hash
      self.fork_choice_state.safe_block_hash self.fork_choice_state.finalized_block_hash
      = (.error (InvalidForkChoice.Other reason), st1)) :
    ForkChoiceUpdatedV3.handle env self context =
      (.err (RpcErr.InvalidForkChoiceState reason),
       [Event.applied_fork_choice self.fork_choice_state.head_block_hash
         self.fork_choice_state.safe_block_hash self.fork_choice_state.finalized_block_hash],
       st1) := by
  simp [ForkChoiceUpdatedV3.handle, happly, handleOutcome, InvalidForkChoice.toString]

/-- C4 witness: a concrete rejection reason is surfaced verbatim as an
`InvalidForkChoiceState` error. -/
theorem invalid_outcome_terminal_error_w :
    ForkChoiceUpdatedV3.handle
      (envOf (.error (InvalidForkChoice.Other "head not found")) (.ok 0)) selfNoAttrs ctxA =
      (.err (RpcErr.InvalidForkChoiceState "head not found"),
       [Event.applied_fork_choice 1 2 3], storeA) :=
  invalid_outcome_terminal_error
    (envOf (.error (InvalidForkChoice.Other "head not found")) (.ok 0)) selfNoAttrs ctxA
    storeA "head not found" rfl

/-- C6: on an `Applied` outcome with well-formed attributes present, the
handler fails with `UnsupportedFork` whenever the requested timestamp is
not Cancun-activated (regardless of the timestamp-monotonicity check,
showing the activation check comes first), fails with the
`InvalidPayloadAttributes` "invalid timestamp" error exactly when the
activation holds and `timestamp ≤ head_block.timestamp`, and in both
failure cases no payload build is attempted (the trace holds only the
fork-choice application). -/
theorem payload_gate_checks (env : Env) (self : ForkChoiceUpdatedV3)
    (context : RpcApiContext) (head_block : BlockHeader) (st1 : Store)
    (attributes : PayloadAttributesV3) (chain_config : ChainConfig)
    (happly : env.apply_fork_choice context.storage self.fork_choice_state.head_block_hash
      self.fork_choice_state.safe_block_hash self.fork_choice_state.finalized_block_hash
      = (.ok head_block, st1))
    (hattrs : self.payload_attributes = .ok (some attributes))
    (hcc : st1.get_chain_config = .ok chain_config) :
    (chain_config.is_cancun_activated attributes.timestamp = false →
      ForkChoiceUpdatedV3.handle env self context =
        (.err (RpcErr.UnsuportedFork "forkChoiceV3 used to build pre-Cancun payload"),
         [Event.applied_fork_choice self.fork_choice_state.head_block_hash
           self.fork_choice_state.safe_block_hash self.fork_choice_state.finalized_block_hash],
         st1)) ∧
    (chain_config.is_cancun_activated attributes.timestamp = true →
      attributes.timestamp ≤ head_block.timestamp →
      ForkChoiceUpdatedV3.handle env self context =
        (.err (RpcErr.InvalidPayloadAttributes "invalid timestamp"),
         [Event.applied_fork_choice self.fork_choice_state.head_block_hash
           self.fork_choice_state.safe_block_hash self.fork_choice_state.finalized_block_hash],
         st1)) ∧
    (chain_config.is_cancun_activated attributes.timestamp = true →
      head_block.timestamp < attributes.timestamp →
      (ForkChoiceUpdatedV3.handle env self context).1 ≠
        .err (RpcErr.InvalidPayloadAttributes "invalid timestamp")) := by
  refine ⟨?_, ?_, ?_⟩
  · intro hact
    simp [ForkChoiceUpdatedV3.handle, happly, handleOutcome, handleApplied, hattrs, hcc, hact]
  · intro hact hts
    simp [ForkChoiceUpdatedV3.handle, happly, handleOutcome, handleApplied, hattrs, hcc, hact, hts]
  · intro hact hts hcontra
    have hnle : ¬ attributes.timestamp ≤ head_block.timestamp := not_le.mpr hts
    simp [ForkChoiceUpdatedV3.handle, happly, handleOutcome, handleApplied, hattrs, hcc, hact,
      hnle] at hcontra
    rcases hcp : env.create_payload (buildArgs self.fork_choice_state attributes) st1 with ce | p
    · rcases ce with e2 | e2 <;> simp [hcp] at hcontra
    · rcases hadd : st1.add_payload (buildArgs self.fork_choice_state attributes).id p
        with e2 | st2 <;> simp [hcp, hadd] at hcontra

/-- C6 witness: with Cancun activating at timestamp 100, a request with
timestamp 90 fails with `UnsupportedFork`; with timestamp 150 over a head
of timestamp 200 it fails with the invalid-timestamp error; with
timestamp 150 over a head of timestamp 50 it does not produce the
invalid-timestamp error. -/
theorem payload_gate_checks_w :
    ForkChoiceUpdatedV3.handle (envOf (.ok ⟨200⟩) (.ok 99)) selfAttrs90 ctxA =
      (.err (RpcErr.UnsuportedFork "forkChoiceV3 used to build pre-Cancun payload"),
       [Event.applied_fork_choice 1 2 3], storeA) ∧
    ForkChoiceUpdatedV3.handle (envOf (.ok ⟨200⟩) (.ok 99)) selfAttrsA ctxA =
      (.err (RpcErr.InvalidPayloadAttributes "invalid timestamp"),
       [Event.applied_fork_choice 1 2 3], storeA) ∧
    (ForkChoiceUpdatedV3.handle (envOf (.ok ⟨50⟩) (.ok 99)) selfAttrsA ctxA).1 ≠
      .err (RpcErr.InvalidPayloadAttributes "invalid timestamp") :=
  ⟨(payload_gate_checks (envOf (.ok ⟨200⟩) (.ok 99)) selfAttrs90 ctxA ⟨200⟩ storeA attrs90
      { is_cancun_activated := fun ts => decide (100 ≤ ts) } rfl rfl rfl).1 (by decide),
   (payload_gate_checks (envOf (.ok ⟨200⟩) (.ok 99)) selfAttrsA ctxA ⟨200⟩ storeA attrsA
      { is_cancun_activated := fun ts => decide (100 ≤ ts) } rfl rfl rfl).2.1 (by decide)
      (by decide),
   (payload_gate_checks (envOf (.ok ⟨50⟩) (.ok 99)) selfAttrsA ctxA ⟨50⟩ storeA attrsA
      { is_cancun_activated := fun ts => decide (100 ≤ ts) } rfl rfl rfl).2.2 (by decide)
      (by decide)⟩

/-- C5: the payload identifier of the outcome is present if and only if
the fork-choice application succeeded (`Applied`), attributes were
present and well-formed, both payload-gate checks passed, and the payload
build and its storage insertion succeeded; and on an `Applied` outcome
with null attributes the response is `VALID` with the requested head
hash and no payload identifier. -/
theorem payload_id_present_iff :
    (∀ (env : Env) (self : ForkChoiceUpdatedV3) (context : RpcApiContext),
      (ForkChoiceUpdatedV3.handle env self context).1.payloadId.isSome = true ↔
        ∃ (head_block : BlockHeader) (st1 : Store) (attributes : PayloadAttributesV3)
          (chain_config : ChainConfig) (payload : Nat) (st2 : Store),
          env.apply_fork_choice context.storage self.fork_choice_state.head_block_hash
            self.fork_choice_state.safe_block_hash self.fork_choice_state.finalized_block_hash
            = (.ok head_block, st1) ∧
          self.payload_attributes = .ok (some attributes) ∧
          st1.get_chain_config = .ok chain_config ∧
          chain_config.is_cancun_activated attributes.timestamp = true ∧
          head_block.timestamp < attributes.timestamp ∧
          env.create_payload (buildArgs self.fork_choice_state attributes) st1 = .ok payload ∧
          st1.add_payload (buildArgs self.fork_choice_state attributes).id payload = .ok st2) ∧
    (∀ (env : Env) (self : ForkChoiceUpdatedV3) (context : RpcApiContext)
      (head_block : BlockHeader) (st1 : Store),
      env.apply_fork_choice context.storage self.fork_choice_state.head_block_hash
        self.fork_choice_state.safe_block_hash self.fork_choice_state.finalized_block_hash
        = (.ok head_block, st1) →
      self.payload_attributes = .ok none →
      ForkChoiceUpdatedV3.handle env self context =
        (.ok { payload_status := { status := .Valid, latest_valid_hash := some self.fork_choice_state.head_block_hash, validation_error := none }, payload_id := none },
         [Event.applied_fork_choice self.fork_choice_state.head_block_hash
           self.fork_choice_state.safe_block_hash self.fork_choice_state.finalized_block_hash],
         st1)) := by
  constructor
  · intro env self context
    rw [handle_eq]
    rcases hap : env.apply_fork_choice context.storage self.fork_choice_state.head_block_hash
        self.fork_choice_state.safe_block_hash self.fork_choice_state.finalized_block_hash
      with ⟨fcres, st1⟩
    cases fcres with
    | error ifc =>
      cases ifc with
      | NewHeadAlreadyCanonical =>
        rcases hl : latest_canonical_block_hash st1 with e | h <;>
          simp [handleOutcome, hl, Outcome.payloadId, ForkChoiceResponse.fromStatus]
      | Syncing =>
        simp only [handleOutcome]
        rcases hn : st1.get_latest_block_number with e | optn
        · simp [handleSyncing, hn, Outcome.payloadId]
        · cases optn with
          | none => simp [handleSyncing, hn, Outcome.payloadId]
          | some n =>
            rcases hh : st1.get_canonical_block_hash n with e | oh
            · simp [handleSyncing, hn, hh, Outcome.payloadId]
            · cases oh with
              | none => simp [handleSyncing, hn, hh, Outcome.payloadId]
              | some ch =>
                simp [handleSyncing, hn, hh, Outcome.payloadId, ForkChoiceResponse.fromStatus]
      | Other r => simp [handleOutcome, Outcome.payloadId]
    | ok head_block =>
      simp only [handleOutcome]
      rcases hpa : self.payload_attributes with e | oa
      · simp [handleApplied, hpa, Outcome.payloadId]
      · cases oa with
        | none => simp [handleApplied, hpa, Outcome.payloadId, ForkChoiceResponse.fromStatus]
        | some attributes =>
          rcases hcc : st1.get_chain_config with e | cc
          · simp [handleApplied, hpa, hcc, Outcome.payloadId]
          · cases hact : cc.is_cancun_activated attributes.timestamp with
            | false => simp [handleApplied, hpa, hcc, hact, Outcome.payloadId]
            | true =>
              by_cases hle : attributes.timestamp ≤ head_block.timestamp
              · simp [handleApplied, hpa, hcc, hact, hle, Outcome.payloadId,
                  Nat.not_lt.mpr hle]
              · rcases hcp : env.create_payload (buildArgs self.fork_choice_state attributes) st1
                  with ce | p
                · rcases ce with e2 | e2 <;>
                    simp [handleApplied, hpa, hcc, hact, hle, hcp, Outcome.payloadId]
                · rcases hadd : st1.add_payload
                      (buildArgs self.fork_choice_state attributes).id p with e2 | st2
                  · simp [handleApplied, hpa, hcc, hact, hle, hcp, hadd, Outcome.payloadId]
                  · simp [handleApplied, hpa, hcc, hact, hle, hcp, hadd, Outcome.payloadId,
                      ForkChoiceResponse.set_id, Nat.lt_of_not_le hle]
                    exact ⟨head_block, st1, ⟨rfl, rfl⟩, cc, hcc, hact,
                      Nat.lt_of_not_le hle, p, hcp, st2, hadd⟩
  · intro env self context head_block st1 happly hattrs
    simp [ForkChoiceUpdatedV3.handle, happly, handleOutcome, handleApplied, hattrs,
      ForkChoiceResponse.fromStatus, PayloadStatus.valid_with_hash]

/-- C5 witness: an `Applied` outcome with null attributes answers `VALID`
with the requested head hash (1, not the stored canonical head 77) and no
payload identifier. -/
theorem payload_id_present_iff_w :
    ForkChoiceUpdatedV3.handle (envOf (.ok ⟨50⟩) (.ok 99)) selfNoAttrs ctxA =
      (.ok { payload_status := { status := .Valid, latest_valid_hash := some 1, validation_error := none }, payload_id := none },
       [Event.applied_fork_choice 1 2 3], storeA) :=
  payload_id_present_iff.2 (envOf (.ok ⟨50⟩) (.ok 99)) selfNoAttrs ctxA ⟨50⟩ storeA rfl rfl

/-- C7 counterexample: on the `Syncing` path over a storage state with no
latest block number, the handler panics (the `unwrap` on the latest-block
-number lookup), and does not fail with an `Internal` error as the claim
states. -/
theorem syncing_missing_latest_panics_cex :
    (ForkChoiceUpdatedV3.handle (envOf (.error InvalidForkChoice.Syncing) (.ok 0))
      selfNoAttrs ctxEmpty).1 = Outcome.panicked ∧
    (ForkChoiceUpdatedV3.handle (envOf (.error InvalidForkChoice.Syncing) (.ok 0))
      selfNoAttrs ctxEmpty).1.isInternalErr = false := by
  exact ⟨rfl, rfl⟩

/-- C7 amended: on the `Syncing` path, a missing latest block number makes
the handler panic; a present latest block number whose canonical hash is
missing fails with the `Internal` "Missing latest canonical block" error;
and when both lookups succeed a synchronization task is spawned from the
current canonical head toward the requested head. -/
theorem syncing_storage_behavior (env : Env) (self : ForkChoiceUpdatedV3)
    (context : RpcApiContext) (st1 : Store)
    (happly : env.apply_fork_choice context.storage self.fork_choice_state.head_block_hash
      self.fork_choice_state.safe_block_hash self.fork_choice_state.finalized_block_hash
      = (.error InvalidForkChoice.Syncing, st1)) :
    (st1.get_latest_block_number = .ok none →
      (ForkChoiceUpdatedV3.handle env self context).1 = Outcome.panicked) ∧
    (∀ n : Nat, st1.get_latest_block_number = .ok (some n) →
      st1.get_canonical_block_hash n = .ok none →
      ForkChoiceUpdatedV3.handle env self context =
        (.err (RpcErr.Internal "Missing latest canonical block"),
         [Event.applied_fork_choice self.fork_choice_state.head_block_hash
           self.fork_choice_state.safe_block_hash self.fork_choice_state.finalized_block_hash],
         st1)) ∧
    (∀ (n : Nat) (current_head : Hash), st1.get_latest_block_number = .ok (some n) →
      st1.get_canonical_block_hash n = .ok (some current_head) →
      Event.spawned_sync current_head self.fork_choice_state.head_block_hash ∈
        (ForkChoiceUpdatedV3.handle env self context).2.1) := by
  refine ⟨?_, ?_, ?_⟩
  · intro hn
    simp [ForkChoiceUpdatedV3.handle, happly, handleOutcome, handleSyncing, hn]
  · intro n hn hh
    simp [ForkChoiceUpdatedV3.handle, happly, handleOutcome, handleSyncing, hn, hh]
  · intro n current_head hn hh
    simp [ForkChoiceUpdatedV3.handle, happly, handleOutcome, handleSyncing, hn, hh]

/-- C7 witness: the panic on a missing latest block number, the
`Internal` error on a missing canonical hash, and the spawned sync task
when both lookups succeed, each at a concrete storage state. -/
theorem syncing_storage_behavior_w :
    (ForkChoiceUpdatedV3.handle (envOf (.error InvalidForkChoice.Syncing) (.ok 1))
      selfNoAttrs ctxEmpty).1 = Outcome.panicked ∧
    ForkChoiceUpdatedV3.handle (envOf (.error InvalidForkChoice.Syncing) (.ok 1))
      selfNoAttrs ctxNoHash =
      (.err (RpcErr.Internal "Missing latest canonical block"),
       [Event.applied_fork_choice 1 2 3], storeNoHash) ∧
    Event.spawned_sync 77 1 ∈
      (ForkChoiceUpdatedV3.handle (envOf (.error InvalidForkChoice.Syncing) (.ok 1))
        selfNoAttrs ctxA).2.1 :=
  ⟨(syncing_storage_behavior (envOf (.error InvalidForkChoice.Syncing) (.ok 1))
      selfNoAttrs ctxEmpty storeEmpty rfl).1 rfl,
   (syncing_storage_behavior (envOf (.error InvalidForkChoice.Syncing) (.ok 1))
      selfNoAttrs ctxNoHash storeNoHash rfl).2.1 5 rfl rfl,
   (syncing_storage_behavior (envOf (.error InvalidForkChoice.Syncing) (.ok 1))
      selfNoAttrs ctxA storeA rfl).2.2 5 77 rfl rfl⟩

/-- C10: when the post-application storage records a latest block number
together with its canonical hash, the two unchecked canonical-head
lookups succeed and `handle` cannot panic, whatever the fork-choice
outcome; when the latest block number is missing, `handle` panics
(instead of returning any typed error) in both the `AlreadyCanonical`
and the `Syncing` branches. -/
theorem canonical_lookups_no_panic :
    (∀ (env : Env) (self : ForkChoiceUpdatedV3) (context : RpcApiContext)
      (res : Except InvalidForkChoice BlockHeader) (st1 : Store) (n : Nat) (h : Hash),
      env.apply_fork_choice context.storage self.fork_choice_state.head_block_hash
        self.fork_choice_state.safe_block_hash self.fork_choice_state.finalized_block_hash
        = (res, st1) →
      st1.get_latest_block_number = .ok (some n) →
      st1.get_canonical_block_hash n = .ok (some h) →
      (ForkChoiceUpdatedV3.handle env self context).1 ≠ Outcome.panicked) ∧
    (∀ (env : Env) (self : ForkChoiceUpdatedV3) (context : RpcApiContext) (st1 : Store),
      env.apply_fork_choice context.storage self.fork_choice_state.head_block_hash
        self.fork_choice_state.safe_block_hash self.fork_choice_state.finalized_block_hash
        = (.error InvalidForkChoice.NewHeadAlreadyCanonical, st1) →
      st1.get_latest_block_number = .ok none →
      (ForkChoiceUpdatedV3.handle env self context).1 = Outcome.panicked) ∧
    (∀ (env : Env) (self : ForkChoiceUpdatedV3) (context : RpcApiContext) (st1 : Store),
      env.apply_fork_choice context.storage self.fork_choice_state.head_block_hash
        self.fork_choice_state.safe_block_hash self.fork_choice_state.finalized_block_hash
        = (.error InvalidForkChoice.Syncing, st1) →
      st1.get_latest_block_number = .ok none →
      (ForkChoiceUpdatedV3.handle env self context).1 = Outcome.panicked) := by
  refine ⟨?_, ?_, ?_⟩
  · intro env self context res st1 n h happly hn hh
    rw [handle_eq, happly]
    cases res with
    | error ifc =>
      cases ifc with
      | NewHeadAlreadyCanonical =>
        simp [handleOutcome, latest_canonical_block_hash, hn, hh]
      | Syncing => simp [handleOutcome, handleSyncing, hn, hh]
      | Other r => simp [handleOutcome]
    | ok head_block =>
      simp only [handleOutcome]
      exact handleApplied_ne_panicked env self st1 head_block _
  · intro env self context st1 happly hn
    simp [handle_eq, happly, handleOutcome, latest_canonical_block_hash, hn]
  · intro env self context st1 happly hn
    simp [handle_eq, happly, handleOutcome, handleSyncing, hn]

/-- C10 witness: over `storeA` (latest number 5 with hash 77) no panic
occurs; over `storeEmpty` (no latest block number) both the
`AlreadyCanonical` and the `Syncing` branches panic. -/
theorem canonical_lookups_no_panic_w :
    (ForkChoiceUpdatedV3.handle (envOf (.error InvalidForkChoice.Syncing) (.ok 2))
      selfAttrsA ctxA).1 ≠ Outcome.panicked ∧
    (ForkChoiceUpdatedV3.handle
      (envOf (.error InvalidForkChoice.NewHeadAlreadyCanonical) (.ok 2))
      selfNoAttrs ctxEmpty).1 = Outcome.panicked ∧
    (ForkChoiceUpdatedV3.handle (envOf (.error InvalidForkChoice.Syncing) (.ok 2))
      selfAttrsA ctxEmpty).1 = Outcome.panicked :=
  ⟨canonical_lookups_no_panic.1 (envOf (.error InvalidForkChoice.Syncing) (.ok 2))
      selfAttrsA ctxA (.error InvalidForkChoice.Syncing) storeA 5 77 rfl rfl rfl,
   canonical_lookups_no_panic.2.1
      (envOf (.error InvalidForkChoice.NewHeadAlreadyCanonical) (.ok 2))
      selfNoAttrs ctxEmpty storeEmpty rfl rfl,
   canonical_lookups_no_panic.2.2 (envOf (.error InvalidForkChoice.Syncing) (.ok 2))
      selfAttrsA ctxEmpty storeEmpty rfl rfl⟩

/-- C8: `parse` requires exactly two positional parameters — a missing
list or any other count fails with `BadParams` (and `parse` is a pure
function, so no side effect precedes the failure); a failing decode of
element 0 is fatal with `BadParams`; a failing decode of element 1 does
not abort parsing and is captured as an error value alongside the
decoded fork-choice state. -/
theorem parse_contract :
    (ForkChoiceUpdatedV3.parse none = .error (RpcErr.BadParams "No params provided")) ∧
    (∀ ps : List Value, ps.length ≠ 2 →
      ForkChoiceUpdatedV3.parse (some ps) = .error (RpcErr.BadParams "Expected 2 params")) ∧
    (∀ (p0 p1 : Value) (e : String), decodeForkChoiceState p0 = .error e →
      ForkChoiceUpdatedV3.parse (some [p0, p1]) = .error (RpcErr.BadParams e)) ∧
    (∀ (p0 p1 : Value) (state : ForkChoiceState) (e : String),
      decodeForkChoiceState p0 = .ok state → decodePayloadAttributes p1 = .error e →
      ForkChoiceUpdatedV3.parse (some [p0, p1]) =
        .ok { fork_choice_state := state, payload_attributes := .error e }) := by
  refine ⟨rfl, ?_, ?_, ?_⟩
  · intro ps hlen
    rcases ps with _ | ⟨a, _ | ⟨b, _ | ⟨c, t⟩⟩⟩
    · rfl
    · rfl
    · exact absurd rfl hlen
    · rfl
  · intro p0 p1 e h
    simp [ForkChoiceUpdatedV3.parse, h]
  · intro p0 p1 state e h0 h1
    simp [ForkChoiceUpdatedV3.parse, h0, h1]

/-- C8 witness: an empty parameter list, an undecodable element 0, and an
undecodable element 1 next to a good element 0, at concrete values. -/
theorem parse_contract_w :
    ForkChoiceUpdatedV3.parse (some []) = .error (RpcErr.BadParams "Expected 2 params") ∧
    ForkChoiceUpdatedV3.parse (some [Value.invalid "junk", Value.attrs none]) =
      .error (RpcErr.BadParams "invalid ForkChoiceState") ∧
    ForkChoiceUpdatedV3.parse (some [Value.fcs stateA, Value.invalid "junk"]) =
      .ok { fork_choice_state := stateA
            payload_attributes := .error "invalid PayloadAttributesV3" } :=
  ⟨parse_contract.2.1 [] (by decide),
   parse_contract.2.2.1 (Value.invalid "junk") (Value.attrs none) "invalid ForkChoiceState" rfl,
   parse_contract.2.2.2 (Value.fcs stateA) (Value.invalid "junk") stateA
     "invalid PayloadAttributesV3" rfl rfl⟩

/-- Invariant of the sync coordinator: at most one synchronization is
active in every reachable state, and none while the lock is free. -/
theorem sync_invariant (c : SyncCoordinator) (h : SyncReachable c) :
    c.active ≤ 1 ∧ (c.lockHeld = false → c.active = 0) := by
  induction h with
  | init => exact ⟨by simp [SyncCoordinator.init], fun _ => by simp [SyncCoordinator.init]⟩
  | step a b ha hstep ih =>
    cases hstep with
    | spawn _ ch sh =>
      rcases ih with ⟨ih1, ih2⟩
      by_cases hl : a.lockHeld = true
      · have hb : (syncTask a ch sh).1 = a := by simp [syncTask, hl]
        rw [hb]
        exact ⟨ih1, ih2⟩
      · simp at hl
        have h0 : a.active = 0 := ih2 hl
        simp [syncTask, hl, h0]
    | finish n =>
      rcases ih with ⟨ih1, _⟩
      simp at ih1 ⊢
      omega

/-- C9: the sync coordinator is acquired only through a non-blocking
try-acquire: when the lock is already held the spawned task is a silent
no-op (the original state is kept and no synchronization is started, with
no error), and along every reachable execution at most one
synchronization task is active at any time. -/
theorem sync_try_acquire :
    (∀ (c : SyncCoordinator) (current_head sync_head : Hash), c.lockHeld = true →
      syncTask c current_head sync_head = (c, none)) ∧
    (∀ c : SyncCoordinator, SyncReachable c → c.active ≤ 1) := by
  constructor
  · intro c ch sh hl
    simp [syncTask, hl]
  · intro c h
    exact (sync_invariant c h).1

/-- C9 witness: a task spawned while a synchronization holds the lock
changes nothing and starts nothing, and the idle state satisfies the
at-most-one bound. -/
theorem sync_try_acquire_w :
    syncTask { lockHeld := true, active := 1 } 77 1 =
      ({ lockHeld := true, active := 1 }, none) ∧
    SyncCoordinator.init.active ≤ 1 :=
  ⟨sync_try_acquire.1 { lockHeld := true, active := 1 } 77 1 rfl,
   sync_try_acquire.2 SyncCoordinator.init SyncReachable.init⟩
